import Mathlib

/-!
# Verification of the route-analysis CLI tools

This development shallowly embeds the analysis core of the two CLI variants
in this repository:

* the simple analyzer (`RouteAnalyzer`, modelled with `A_`-prefixed
  definitions), and
* the extended debugger (`RouteDebugger` in `bin/cli.js`, modelled with
  `D_`-prefixed definitions).

Both variants run the same nine regex/substring rules over whole-file text.
Every regular expression the rules use is either a literal string, an
alternation of literal strings, or a sequence of literals separated by the
whitespace classes written backslash-s-star / backslash-s-plus.  We embed
exactly that fragment: a pattern is a list of tokens (`RTok`), and
`matchSeq` matches a pattern against a prefix of a character list using
maximal-munch whitespace consumption.  For the patterns appearing in this
repository maximal munch agrees with the JavaScript backtracking
semantics, because every whitespace token is immediately followed by a
literal whose first character is not whitespace (so giving back whitespace
can never rescue a failed literal).

File contents and paths are JavaScript strings, modelled as `String`; the
matching core works on `List Char`.  The whitespace class is modelled over
its ASCII members, and the case-insensitivity of the filename predicate
over ASCII folding, which is faithful for the ASCII patterns the rules
deal in.
-/

namespace RouteTools

/-- ASCII members of the JavaScript whitespace class. -/
def isWs (c : Char) : Bool :=
  c = ' ' || c = '\t' || c = '\n' || c = '\r' || Char.ofNat 11 = c || Char.ofNat 12 = c

/-- Number of leading whitespace characters (the maximal-munch length a
greedy whitespace token consumes). -/
def takeWs : List Char → Nat
  | [] => 0
  | c :: t => if isWs c then takeWs t + 1 else 0

/-- Prefix test on character lists (recursion on the pattern so that it
unfolds one character at a time). -/
def isPrefL : List Char → List Char → Bool
  | [], _ => true
  | _ :: _, [] => false
  | a :: as, b :: bs => (a == b) && isPrefL as bs

/-- Tokens of the regex fragment the rules use. -/
inductive RTok where
  | lit : List Char → RTok
  | wsPlus : RTok
  | wsStar : RTok

/-- A pattern is a sequence of tokens. -/
abbrev RPat := List RTok

/-- Match a pattern against a prefix of `s`; returns the number of
characters consumed.  Whitespace tokens consume maximally, which for the
repository's patterns coincides with the backtracking semantics (see the
module comment). -/
def matchSeq : RPat → List Char → Option Nat
  | [], _ => some 0
  | RTok.lit cs :: ps, s =>
      if isPrefL cs s then (matchSeq ps (s.drop cs.length)).map (· + cs.length)
      else none
  | RTok.wsPlus :: ps, s =>
      let n := takeWs s
      if n = 0 then none else (matchSeq ps (s.drop n)).map (· + n)
  | RTok.wsStar :: ps, s =>
      let n := takeWs s
      (matchSeq ps (s.drop n)).map (· + n)

/-- `true` when the pattern matches at the very start of `s`. -/
def hasMatchSeq (pat : RPat) (s : List Char) : Bool :=
  (matchSeq pat s).isSome

/-- First-hit scan: return the first `some` produced over the candidate
list, in order.  This models the regex engine trying successive start
positions left to right. -/
def scanFirstOpt {α : Type} (f : Nat → Option α) : List Nat → Option α
  | [] => none
  | i :: t =>
      match f i with
      | some r => some r
      | none => scanFirstOpt f t

/-- Does any of the alternative literals match at the start of `s`?
(JavaScript alternation of literals at a fixed position.) -/
def matchAltAt (lits : List (List Char)) (s : List Char) : Bool :=
  lits.any (fun l => isPrefL l s)

/-- Index of the first position at which some alternative matches: the
semantics of `search` and `test` for an alternation of literals. -/
def firstAltPos (lits : List (List Char)) (s : List Char) : Option Nat :=
  scanFirstOpt (fun i => if matchAltAt lits (s.drop i) then some i else none)
    (List.range (s.length + 1))

/-- JavaScript substring containment (`String.prototype.includes`). -/
def containsSub (s sub : List Char) : Bool :=
  (firstAltPos [sub] s).isSome

/-- Substring containment on `String`s. -/
def includesS (s sub : String) : Bool :=
  containsSub s.toList sub.toList

/-- Leftmost match of a sequence pattern: start index and length.  Models
the first element of a JavaScript global match. -/
def firstMatch (pat : RPat) (s : List Char) : Option (Nat × Nat) :=
  scanFirstOpt
    (fun i =>
      match matchSeq pat (s.drop i) with
      | some e => some (i, e)
      | none => none)
    (List.range (s.length + 1))

/-- Fuelled scan counting non-overlapping matches left to right, resuming
after each match (JavaScript global match: the length of the returned
array). -/
def countFrom (pat : RPat) : Nat → List Char → Nat
  | 0, _ => 0
  | fuel + 1, s =>
      match matchSeq pat s with
      | some e => 1 + countFrom pat fuel (s.drop (max e 1))
      | none =>
          match s with
          | [] => 0
          | _ :: t => countFrom pat fuel t

/-- Number of global-flag matches of `pat` in `s`.  The fuel
`s.length + 1` bounds the number of scan steps, each of which consumes at
least one character or ends the scan. -/
def countMatches (pat : RPat) (s : List Char) : Nat :=
  countFrom pat (s.length + 1) s

/-- Lowercase an ASCII letter (models the effect of the case-insensitive
flag on the ASCII patterns the relevance predicate uses). -/
def toLowerA (c : Char) : Char :=
  if 'A' ≤ c ∧ c ≤ 'Z' then Char.ofNat (c.toNat + 32) else c

/-- ASCII-lowercase a character list. -/
def lowerL (s : List Char) : List Char := s.map toLowerA

/-- Count of elements satisfying `p` (the shape of the JavaScript counter
loops). -/
def countB {α : Type} (p : α → Bool) : List α → Nat
  | [] => 0
  | a :: t => (if p a then 1 else 0) + countB p t

/-- Any-element test by structural recursion. -/
def anyB {α : Type} (p : α → Bool) : List α → Bool
  | [] => false
  | a :: t => p a || anyB p t

/-- All-elements test by structural recursion. -/
def allB {α : Type} (p : α → Bool) : List α → Bool
  | [] => true
  | a :: t => p a && allB p t

/-- Number of positions of `s` at which `sub` occurs as a substring. -/
def occCount (s sub : List Char) : Nat :=
  countB (fun i => isPrefL sub (s.drop i)) (List.range (s.length + 1))

/-! ## The patterns of the nine rules

The literals below are transcribed from `checkDynamicRouteGeneration`
through `checkPerformancePatterns`, which are character-for-character
identical in the two variants up to the emitted records. -/

/-- The opening-brace character. -/
def lbrace : Char := Char.ofNat 123

/-- The closing-brace character. -/
def rbrace : Char := Char.ofNat 125

/-- The `routes.map` destructuring pattern of rule 1
(`routesMapPattern` in the source). -/
def routesMapPat : RPat :=
  [.lit "routes.map".toList, .wsStar, .lit ['('], .wsStar, .lit ['('], .wsStar, .lit [lbrace],
   .wsStar, .lit "path".toList, .wsStar, .lit [','], .wsStar, .lit "Component".toList,
   .wsStar, .lit [rbrace], .wsStar, .lit [')']]

/-- The literal text `routes.map(({ path, Component })`, which rule 1's
pattern matches with the minimal whitespace choices. -/
def dynLitChars : List Char :=
  "routes.map((".toList ++ lbrace :: " path, Component ".toList ++ rbrace :: ")".toList

/-- The `new QueryClient(` constructor pattern of rule 2
(`queryClientPattern` in the source), with flexible whitespace. -/
def qcPat : RPat :=
  [.lit "new".toList, .wsPlus, .lit "QueryClient".toList, .wsStar, .lit ['(']]

/-- The literal text `new QueryClient(`. -/
def qcLitChars : List Char := "new QueryClient(".toList

/-- Alternatives of rule 3's context pattern
(`createContext|useContext|.Provider`, the dot escaped in the source). -/
def ctxLits : List (List Char) :=
  ["createContext".toList, "useContext".toList, ".Provider".toList]

/-- Rule 3's router-root marker. -/
def routesTagChars : List Char := "<Routes>".toList

/-- Alternatives of rule 6's iteration-method pattern. -/
def expLits : List (List Char) :=
  [".map(".toList, ".filter(".toList, ".reduce(".toList, ".forEach(".toList]

/-! ## Shared rule conditions

Both variants compute these identically; the definitions below are shared
so the refinement proof can compare the emitted records branch by
branch. -/

/-- Rule 1's match (`content.match(routesMapPattern)`): leftmost match
position and length, `none` when the file does not match. -/
def dynMatch (c : String) : Option (Nat × Nat) :=
  firstMatch routesMapPat c.toList

/-- The text of rule 1's first match (`matches[0]`). -/
def dynPatternStr (c : String) (ie : Nat × Nat) : String :=
  String.mk ((c.toList.drop ie.1).take ie.2)

/-- Rule 2's match count (`matches.length`). -/
def qcCount (c : String) : Nat := countMatches qcPat c.toList

/-- Rule 3's `contextPattern.test(content)`. -/
def hasCtxTok (c : String) : Bool := (firstAltPos ctxLits c.toList).isSome

/-- Rule 3's `routesPattern.test(content)`. -/
def hasRoutesTag (c : String) : Bool := (firstAltPos [routesTagChars] c.toList).isSome

/-- JavaScript `String.prototype.search`: first match index, `-1` when
absent. -/
def searchIdx (lits : List (List Char)) (s : List Char) : Int :=
  match firstAltPos lits s with
  | some i => (i : Int)
  | none => -1

/-- `content.search(contextPattern)`. -/
def searchCtxI (c : String) : Int := searchIdx ctxLits c.toList

/-- `content.search(routesPattern)`. -/
def searchRoutesI (c : String) : Int := searchIdx [routesTagChars] c.toList

/-- `content.includes("useMemo")`. -/
def useMemoIn (c : String) : Bool := includesS c "useMemo"

/-- `content.includes("useCallback")`. -/
def useCallbackIn (c : String) : Bool := includesS c "useCallback"

/-- Rule 6's iteration-method test (`hasExpensiveCalculations`). -/
def hasExpCalc (c : String) : Bool := (firstAltPos expLits c.toList).isSome

/-- Rule 6's guard: iteration methods present, neither memoization hook
present. -/
def memoCond (c : String) : Bool := hasExpCalc c && !useMemoIn c && !useCallbackIn c

/-- Rule 7's occurrence count of `AsyncWrapper`. -/
def awCount (c : String) : Nat := countMatches [.lit "AsyncWrapper".toList] c.toList

/-- Rule 8's guard: shell hook present and some memoization hook absent. -/
def shellCond (c : String) : Bool :=
  includesS c "useModulePathResolver" && (!useMemoIn c || !useCallbackIn c)

/-! ## Records -/

/-- One detected pattern occurrence (`fileIssues.push({...})` in the
source).  Optional fields are absent unless the emitting rule sets
them. -/
structure Issue where
  type : String
  severity : String
  file : String
  message : String
  pattern : Option String := none
  count : Option Nat := none
  fix : Option String := none
deriving DecidableEq

/-- A remediation suggestion (`this.recommendations.push({...})`). -/
structure Rec where
  file : Option String := none
  priority : Option String := none
  message : String
  action : Option String := none
deriving DecidableEq

/-- Forget the `fix` field of an issue (for comparing the two variants'
otherwise identical records). -/
def eraseFix (i : Issue) : Issue := { i with fix := none }

/-! ## The nine rules, simple variant (`RouteAnalyzer`)

Each check returns the issues it pushes onto `fileIssues` paired with the
recommendations it pushes onto `this.recommendations`. -/

/-- Rule 1 of `RouteAnalyzer`: dynamic route generation. -/
def A_checkDynamicRouteGeneration (c p : String) : List Issue × List Rec :=
  match dynMatch c with
  | some ie =>
      ([{ type := "dynamic-route-generation", severity := "high", file := p,
          message := "Dynamic route generation detected - may cause unmounts",
          pattern := some (dynPatternStr c ie) }],
       if useMemoIn c then []
       else [{ file := some p, message := "Wrap routes array in useMemo to prevent recreation" }])
  | none => ([], [])

/-- Rule 2 of `RouteAnalyzer`: ad hoc `QueryClient` construction. -/
def A_checkQueryClientCreation (c p : String) : List Issue × List Rec :=
  if 0 < qcCount c then
    ([{ type := "query-client-creation", severity := "medium", file := p,
        message := "QueryClient created in route file - may cause state loss",
        count := some (qcCount c) }],
     [{ file := some p, message := "Move QueryClient creation to module level or share instance" }])
  else ([], [])

/-- Rule 3 of `RouteAnalyzer`: context above the router root, decided by
comparing first-occurrence indices. -/
def A_checkContextPlacement (c p : String) : List Issue × List Rec :=
  if hasCtxTok c && hasRoutesTag c then
    if searchCtxI c < searchRoutesI c ∧ searchCtxI c ≠ -1 ∧ searchRoutesI c ≠ -1 then
      ([{ type := "context-placement", severity := "high", file := p,
          message := "Context may be placed above Routes - could cause unmounts" }],
       [{ file := some p,
          message := "Move context provider below shell routing but above module routes" }])
    else ([], [])
  else ([], [])

/-- Rule 4 of `RouteAnalyzer`: blocking-navigation marker. -/
def A_checkBlockedNavigation (c p : String) : List Issue × List Rec :=
  if includesS c "BlockedNavigation" then
    ([{ type := "blocked-navigation", severity := "medium", file := p,
        message := "BlockedNavigation component found - may interfere with routing" }],
     [{ file := some p, message := "Review BlockedNavigation placement and when conditions" }])
  else ([], [])

/-- Rule 5 of `RouteAnalyzer`: activity-tracking marker. -/
def A_checkActivityContext (c p : String) : List Issue × List Rec :=
  if includesS c "ActivityContext" then
    ([{ type := "activity-context", severity := "medium", file := p,
        message := "ActivityContext found - may track navigation changes" }],
     [{ file := some p,
        message := "Review ActivityContext usage for potential navigation interference" }])
  else ([], [])

/-- Rule 6 of `RouteAnalyzer`: missing memoization. -/
def A_checkMemoization (c p : String) : List Issue × List Rec :=
  if memoCond c then
    ([{ type := "missing-memoization", severity := "low", file := p,
        message := "Expensive calculations detected without memoization" }],
     [{ file := some p,
        message := "Consider memoizing expensive calculations with useMemo/useCallback" }])
  else ([], [])

/-- Rule 7 of `RouteAnalyzer`: duplicate async-wrapper usage (no
recommendation in this variant). -/
def A_checkAsyncWrapper (c p : String) : List Issue × List Rec :=
  if includesS c "AsyncWrapper" && 1 < awCount c then
    ([{ type := "multiple-async-wrappers", severity := "medium", file := p,
        message := "Multiple AsyncWrapper instances detected", count := some (awCount c) }],
     [])
  else ([], [])

/-- Rule 8 of `RouteAnalyzer`: unmemoized shell hooks (no
recommendation). -/
def A_checkShellPatterns (c p : String) : List Issue × List Rec :=
  if shellCond c then
    ([{ type := "unmemoized-shell-hooks", severity := "medium", file := p,
        message := "Shell hooks used without proper memoization" }],
     [])
  else ([], [])

/-- Rule 9 of `RouteAnalyzer`: the three performance smells, each tested
independently. -/
def A_checkPerformancePatterns (c p : String) : List Issue × List Rec :=
  ((if includesS c "console.log" then
      [{ type := "performance-issue", severity := "low", file := p,
         message := "Console statements found - remove for production" }]
    else []) ++
   (if includesS c "debugger" then
      [{ type := "performance-issue", severity := "low", file := p,
         message := "Debugger statements found - remove for production" }]
    else []) ++
   (if includesS c "JSON.parse(JSON.stringify" then
      [{ type := "performance-issue", severity := "low", file := p,
         message := "Deep cloning with JSON methods - consider alternatives" }]
    else []),
   [])

/-- Result of running the simple variant's nine checks on one file, in the
fixed order of `analyzeRouteFile`. -/
structure AOut where
  issues : List Issue
  recs : List Rec
deriving DecidableEq

/-- The nine checks of `RouteAnalyzer.analyzeRouteFile`, in source
order. -/
def A_rules (c p : String) : AOut :=
  { issues :=
      (A_checkDynamicRouteGeneration c p).1 ++ (A_checkQueryClientCreation c p).1 ++
      (A_checkContextPlacement c p).1 ++ (A_checkBlockedNavigation c p).1 ++
      (A_checkActivityContext c p).1 ++ (A_checkMemoization c p).1 ++
      (A_checkAsyncWrapper c p).1 ++ (A_checkShellPatterns c p).1 ++
      (A_checkPerformancePatterns c p).1,
    recs :=
      (A_checkDynamicRouteGeneration c p).2 ++ (A_checkQueryClientCreation c p).2 ++
      (A_checkContextPlacement c p).2 ++ (A_checkBlockedNavigation c p).2 ++
      (A_checkActivityContext c p).2 ++ (A_checkMemoization c p).2 ++
      (A_checkAsyncWrapper c p).2 ++ (A_checkShellPatterns c p).2 ++
      (A_checkPerformancePatterns c p).2 }

/-! ## The nine rules, extended variant (`RouteDebugger` in `bin/cli.js`)

The extended checks push no recommendations; instead every issue carries a
`fix` string. -/

/-- Rule 1 of `RouteDebugger`. -/
def D_checkDynamicRouteGeneration (c p : String) : List Issue :=
  match dynMatch c with
  | some ie =>
      [{ type := "dynamic-route-generation", severity := "high", file := p,
         message := "Dynamic route generation detected - may cause unmounts",
         pattern := some (dynPatternStr c ie),
         fix := some "Wrap routes array in useMemo to prevent recreation" }]
  | none => []

/-- Rule 2 of `RouteDebugger`. -/
def D_checkQueryClientCreation (c p : String) : List Issue :=
  if 0 < qcCount c then
    [{ type := "query-client-creation", severity := "medium", file := p,
       message := "QueryClient created in route file - may cause state loss",
       count := some (qcCount c),
       fix := some "Move QueryClient creation to module level or share instance" }]
  else []

/-- Rule 3 of `RouteDebugger`. -/
def D_checkContextPlacement (c p : String) : List Issue :=
  if hasCtxTok c && hasRoutesTag c then
    if searchCtxI c < searchRoutesI c ∧ searchCtxI c ≠ -1 ∧ searchRoutesI c ≠ -1 then
      [{ type := "context-placement", severity := "high", file := p,
         message := "Context may be placed above Routes - could cause unmounts",
         fix := some "Move context provider below shell routing but above module routes" }]
    else []
  else []

/-- Rule 4 of `RouteDebugger`. -/
def D_checkBlockedNavigation (c p : String) : List Issue :=
  if includesS c "BlockedNavigation" then
    [{ type := "blocked-navigation", severity := "medium", file := p,
       message := "BlockedNavigation component found - may interfere with routing",
       fix := some "Review BlockedNavigation placement and when conditions" }]
  else []

/-- Rule 5 of `RouteDebugger`. -/
def D_checkActivityContext (c p : String) : List Issue :=
  if includesS c "ActivityContext" then
    [{ type := "activity-context", severity := "medium", file := p,
       message := "ActivityContext found - may track navigation changes",
       fix := some "Review ActivityContext usage for potential navigation interference" }]
  else []

/-- Rule 6 of `RouteDebugger`. -/
def D_checkMemoization (c p : String) : List Issue :=
  if memoCond c then
    [{ type := "missing-memoization", severity := "low", file := p,
       message := "Expensive calculations detected without memoization",
       fix := some "Consider memoizing expensive calculations with useMemo/useCallback" }]
  else []

/-- Rule 7 of `RouteDebugger`. -/
def D_checkAsyncWrapper (c p : String) : List Issue :=
  if includesS c "AsyncWrapper" && 1 < awCount c then
    [{ type := "multiple-async-wrappers", severity := "medium", file := p,
       message := "Multiple AsyncWrapper instances detected", count := some (awCount c),
       fix := some "Consolidate AsyncWrapper usage to prevent conflicts" }]
  else []

/-- Rule 8 of `RouteDebugger`. -/
def D_checkShellPatterns (c p : String) : List Issue :=
  if shellCond c then
    [{ type := "unmemoized-shell-hooks", severity := "medium", file := p,
       message := "Shell hooks used without proper memoization",
       fix := some "Wrap shell hooks with useMemo/useCallback for stability" }]
  else []

/-- Rule 9 of `RouteDebugger` (the severity comes from the pattern table,
`low` for all three entries). -/
def D_checkPerformancePatterns (c p : String) : List Issue :=
  (if includesS c "console.log" then
     [{ type := "performance-issue", severity := "low", file := p,
        message := "Console statements found - remove for production",
        fix := some "Optimize performance by addressing this pattern" }]
   else []) ++
  (if includesS c "debugger" then
     [{ type := "performance-issue", severity := "low", file := p,
        message := "Debugger statements found - remove for production",
        fix := some "Optimize performance by addressing this pattern" }]
   else []) ++
  (if includesS c "JSON.parse(JSON.stringify" then
     [{ type := "performance-issue", severity := "low", file := p,
        message := "Deep cloning with JSON methods - consider alternatives",
        fix := some "Optimize performance by addressing this pattern" }]
   else [])

/-- The nine checks of `RouteDebugger.analyzeRouteFile`, in source
order. -/
def D_rules (c p : String) : List Issue :=
  D_checkDynamicRouteGeneration c p ++ D_checkQueryClientCreation c p ++
  D_checkContextPlacement c p ++ D_checkBlockedNavigation c p ++
  D_checkActivityContext c p ++ D_checkMemoization c p ++
  D_checkAsyncWrapper c p ++ D_checkShellPatterns c p ++
  D_checkPerformancePatterns c p

/-- `analyzeRouteFile`'s effect on the accumulated issue list
(`this.issues.push(...fileIssues)` after running the nine checks). -/
def D_appendIssues (prev : List Issue) (c p : String) : List Issue :=
  prev ++ D_rules c p

/-! ## The file walker

`findRouteFiles` reads a directory listing; for each entry it recurses
into non-skipped subdirectories, and otherwise hands relevant names to
`analyzeRouteFile`.  A failed directory read (modelled as `none` entries)
is caught and yields nothing; a failed file read (modelled as `none`
content, which is also what reading a directory as a file produces) is
caught inside `analyzeRouteFile`. -/

mutual
/-- A directory entry: a file with optionally readable content, or a
directory with an optionally readable listing. -/
inductive FsEntry where
  | file : String → Option String → FsEntry
  | dir : String → Option FsListing → FsEntry
/-- A directory listing in `readdirSync` order. -/
inductive FsListing where
  | nil : FsListing
  | cons : FsEntry → FsListing → FsListing
end

/-- One call of `analyzeRouteFile`: the entry's name, the joined path, and
the read outcome. -/
structure Visit where
  name : String
  path : String
  content : Option String
deriving DecidableEq

/-- `path.join(dir, name)`, with an empty base for the analysis root so
that visit paths coincide with the `path.relative` values the rules
receive. -/
def joinP (pre n : String) : String := if pre = "" then n else pre ++ "/" ++ n

/-- The fixed directory denylist (`skipDirs` in the source). -/
def skipDirs : List String := ["node_modules", ".git", "dist", "build", "coverage", ".next"]

/-- `shouldSkipDirectory`: exact, case-sensitive basename membership. -/
def shouldSkipDirectory (d : String) : Bool := skipDirs.contains d

/-- The case-insensitive `route` test of `isRelevantFile`
(the alternation `route|Route` under the case-insensitive flag). -/
def routeNameTest (n : String) : Bool :=
  (firstAltPos [lowerL "route".toList, lowerL "Route".toList] (lowerL n.toList)).isSome

/-- The anchored `Routes` suffix test of `isRelevantFile`
(`Routes` then a dot then `ts` then an optional `x`, at the end). -/
def routesSuffixTest (n : String) : Bool :=
  "Routes.ts".toList.isSuffixOf n.toList || "Routes.tsx".toList.isSuffixOf n.toList

/-- The anchored extension test of `isRelevantFile` (`.ts`, `.tsx`, `.js`
or `.jsx` at the end). -/
def extTest (n : String) : Bool :=
  ".ts".toList.isSuffixOf n.toList || ".tsx".toList.isSuffixOf n.toList ||
  ".js".toList.isSuffixOf n.toList || ".jsx".toList.isSuffixOf n.toList

/-- `isRelevantFile`, transcribed from the source's three regex tests. -/
def isRelevantFile (n : String) : Bool :=
  (routeNameTest n || routesSuffixTest n) && extTest n

mutual
/-- The walk of one directory entry: the ordered `analyzeRouteFile` calls
it gives rise to.  A directory that is skipped (or whose entries cannot be
listed) is not recursed into; a skipped directory still reaches the
relevance test, and reading it as a file fails. -/
def walkEntry (pre : String) : FsEntry → List Visit
  | .file n c => if isRelevantFile n then [⟨n, joinP pre n, c⟩] else []
  | .dir n none =>
      if shouldSkipDirectory n then
        (if isRelevantFile n then [⟨n, joinP pre n, none⟩] else [])
      else []
  | .dir n (some es) =>
      if shouldSkipDirectory n then
        (if isRelevantFile n then [⟨n, joinP pre n, none⟩] else [])
      else walkList (joinP pre n) es
/-- The walk of a directory listing, in listing order. -/
def walkList (pre : String) : FsListing → List Visit
  | .nil => []
  | .cons e t => walkEntry pre e ++ walkList pre t
end

/-- The visits of a whole run: the target directory's listing walked from
the root (an unreadable target listing is caught and yields nothing). -/
def visitsOf : Option FsListing → List Visit
  | some es => walkList "" es
  | none => []

/-! ## Statistics and aggregation -/

/-- The `fileStats` counters. -/
structure FileStats where
  total : Nat
  analyzed : Nat
  withIssues : Nat
deriving DecidableEq

/-- Was the file's content read successfully (`analyzed++` is reached)? -/
def analyzedP (v : Visit) : Bool := v.content.isSome

/-- Did the simple variant's checks produce at least one issue for this
visit? -/
def withIssuesPA (v : Visit) : Bool :=
  match v.content with
  | some cc => !(A_rules cc v.path).issues.isEmpty
  | none => false

/-- Did the extended variant's checks produce at least one issue for this
visit? -/
def withIssuesPD (v : Visit) : Bool :=
  match v.content with
  | some cc => !(D_rules cc v.path).isEmpty
  | none => false

/-- End-of-run `fileStats` of the simple variant: `total++` for every
relevance-passing entry, `analyzed++` after every successful read,
`withIssues++` for every non-empty per-file issue list. -/
def A_stats (vs : List Visit) : FileStats :=
  ⟨vs.length, countB analyzedP vs, countB withIssuesPA vs⟩

/-- End-of-run `fileStats` of the extended variant: `bin/cli.js` contains
no `fileStats.total++` anywhere, so `total` keeps its initial value. -/
def D_stats (vs : List Visit) : FileStats :=
  ⟨0, countB analyzedP vs, countB withIssuesPD vs⟩

/-- The simple variant's global issue sequence over a run. -/
def A_issuesOfVisits : List Visit → List Issue
  | [] => []
  | v :: t =>
      (match v.content with
       | some cc => (A_rules cc v.path).issues
       | none => []) ++ A_issuesOfVisits t

/-- The extended variant's global issue sequence over a run. -/
def D_issuesOfVisits : List Visit → List Issue
  | [] => []
  | v :: t =>
      (match v.content with
       | some cc => D_rules cc v.path
       | none => []) ++ D_issuesOfVisits t

/-- All issues of an extended-variant run over a target listing. -/
def D_allIssues (tree : Option FsListing) : List Issue :=
  D_issuesOfVisits (visitsOf tree)

/-- Severity counters with the three fixed keys of
`getIssuesBySeverity`. -/
structure SevCounts where
  high : Nat
  medium : Nat
  low : Nat
deriving DecidableEq

/-- One step of `getIssuesBySeverity`'s loop.  An out-of-enum severity
would create a fresh object key in JavaScript, leaving the three fixed
keys unchanged, which the final branch models. -/
def bumpSev (a : SevCounts) (i : Issue) : SevCounts :=
  if i.severity = "high" then { a with high := a.high + 1 }
  else if i.severity = "medium" then { a with medium := a.medium + 1 }
  else if i.severity = "low" then { a with low := a.low + 1 }
  else a

/-- `getIssuesBySeverity`: fold the counter over the issue list. -/
def getIssuesBySeverity (l : List Issue) : SevCounts :=
  l.foldl bumpSev ⟨0, 0, 0⟩

/-- Sum of the three fixed severity counters. -/
def sevTotal (a : SevCounts) : Nat := a.high + a.medium + a.low

/-- Membership of an issue's severity in the three-value enum. -/
def sevOKb (i : Issue) : Bool :=
  i.severity == "high" || i.severity == "medium" || i.severity == "low"

/-! ## The command-line entry points -/

/-- Parsed options of the simple variant. -/
structure AOpts where
  verbose : Bool
  json : Bool
  help : Bool
  target : String
deriving DecidableEq

/-- Does `s` start with `pre`?  (List-level model of
`String.prototype.startsWith`.) -/
def startsWithS (s pre : String) : Bool := isPrefL pre.toList s.toList

/-- `path.resolve(arg)` against the working directory (absolute paths kept,
relative ones joined). -/
def resolveP (cwd a : String) : String :=
  if startsWithS a "/" then a else cwd ++ "/" ++ a

/-- The simple variant's argument loop: flags set options, any argument
not starting with a dash becomes the target. -/
def A_parseArgs (cwd : String) : List String → AOpts → AOpts
  | [], o => o
  | a :: t, o =>
      if a = "--help" || a = "-h" then A_parseArgs cwd t { o with help := true }
      else if a = "--verbose" || a = "-v" then A_parseArgs cwd t { o with verbose := true }
      else if a = "--json" || a = "-j" then A_parseArgs cwd t { o with json := true }
      else if !(startsWithS a "-") then A_parseArgs cwd t { o with target := resolveP cwd a }
      else A_parseArgs cwd t o

/-- The simple variant's options for an invocation (target defaults to the
working directory). -/
def A_options (args : List String) (cwd : String) : AOpts :=
  A_parseArgs cwd args { verbose := false, json := false, help := false, target := cwd }

/-- Parsed options of the extended variant. -/
structure DOpts where
  verbose : Bool
  json : Bool
  html : Bool
  help : Bool
  output : Option String
  target : String
deriving DecidableEq

/-- The extended variant's argument loop.  Note the positional branch: an
argument not starting with two dashes is accepted as the target only when
`fs.existsSync(arg)` holds, so a nonexistent path is silently ignored. -/
def D_parseArgs (cwd : String) (ex : String → Bool) : List String → DOpts → DOpts
  | [], o => o
  | a :: t, o =>
      if a = "--help" || a = "-h" then D_parseArgs cwd ex t { o with help := true }
      else if a = "--verbose" || a = "-v" then D_parseArgs cwd ex t { o with verbose := true }
      else if a = "--json" || a = "-j" then D_parseArgs cwd ex t { o with json := true }
      else if a = "--html" then D_parseArgs cwd ex t { o with html := true }
      else if startsWithS a "--output=" then
        D_parseArgs cwd ex t
          { o with output := some (String.mk ((a.toList.drop 9).takeWhile (fun ch => ch ≠ '='))) }
      else if a = "--output" then
        match t with
        | b :: t2 => D_parseArgs cwd ex t2 { o with output := some b }
        | [] => { o with output := none }
      else if !(startsWithS a "--") && ex (resolveP cwd a) then
        D_parseArgs cwd ex t { o with target := resolveP cwd a }
      else D_parseArgs cwd ex t o

/-- The extended variant's options, including the HTML default applied
after the loop when neither JSON nor HTML was requested. -/
def D_options (args : List String) (cwd : String) (ex : String → Bool) : DOpts :=
  let o := D_parseArgs cwd ex args
    { verbose := false, json := false, html := false, help := false, output := none,
      target := cwd }
  if !o.json && !o.html then { o with html := true } else o

/-- Observable outcome of one CLI invocation. -/
structure CliResult where
  exitCode : Nat
  pathErrorPrinted : Bool
  filesAnalyzed : Nat
deriving DecidableEq

/-- Number of files whose content was read during a run. -/
def analyzedCount (vs : List Visit) : Nat := countB analyzedP vs

/-- The simple variant's entry point: help exits 0 before anything else; a
missing target prints the path error and exits 1 before any analysis;
otherwise the run exits 1 exactly when console mode found issues.  `ex` is
the file-system existence test and `tree` the target's listing. -/
def A_main (args : List String) (ex : String → Bool) (cwd : String)
    (tree : Option FsListing) : CliResult :=
  if (A_options args cwd).help then
    { exitCode := 0, pathErrorPrinted := false, filesAnalyzed := 0 }
  else if ex ((A_options args cwd).target) then
    { exitCode :=
        if !(A_options args cwd).json && !(A_issuesOfVisits (visitsOf tree)).isEmpty then 1
        else 0,
      pathErrorPrinted := false,
      filesAnalyzed := analyzedCount (visitsOf tree) }
  else { exitCode := 1, pathErrorPrinted := true, filesAnalyzed := 0 }

/-- The extended variant's entry point (console mode is reached only when
neither JSON nor HTML is selected, and only console mode can exit 1 for
found issues). -/
def D_main (args : List String) (ex : String → Bool) (cwd : String)
    (tree : Option FsListing) : CliResult :=
  if (D_options args cwd ex).help then
    { exitCode := 0, pathErrorPrinted := false, filesAnalyzed := 0 }
  else if ex ((D_options args cwd ex).target) then
    { exitCode :=
        if !(D_options args cwd ex).json && !(D_options args cwd ex).html &&
            !(D_issuesOfVisits (visitsOf tree)).isEmpty then 1
        else 0,
      pathErrorPrinted := false,
      filesAnalyzed := analyzedCount (visitsOf tree) }
  else { exitCode := 1, pathErrorPrinted := true, filesAnalyzed := 0 }


/-! ## Predicates and fixtures used by the claims -/

/-- Predicate picking out rule 1's issue record. -/
def dynIssueP (i : Issue) : Bool :=
  i.type == "dynamic-route-generation" && i.severity == "high"

/-- Predicate picking out rule 1's memoization recommendation. -/
def recWrapP (r : Rec) : Bool :=
  r.message == "Wrap routes array in useMemo to prevent recreation"

/-- A target listing holding a single relevant, readable file. -/
def tree0 : FsListing := .cons (.file "route.js" (some "")) .nil

/-- A target listing for the extended-variant CLI counterexample. -/
def cexTree : FsListing := .cons (.file "route.js" (some "x")) .nil

/-- An existence test under which only the working directory `/cwd`
exists. -/
def cexEx : String → Bool := fun q => if q = "/cwd" then true else false

/-- A file content consisting exactly of the `routes.map` literal. -/
def c3w : String := String.mk dynLitChars

/-- A file content with the `new QueryClient(` literal twice and a
tab-separated variant of the constructor pattern once. -/
def c5cex : String := "new QueryClient( new QueryClient( new\tQueryClient("

/-! ## The spec-side relevance predicate

Stated from the specification's words for the refinement comparison of
claim C7: case-insensitive `route` substring, or the `Routes` suffix
pattern, and one of the four script extensions. -/

/-- The relevance predicate as the specification states it. -/
def relevanceSpec (n : String) : Bool :=
  (containsSub (lowerL n.toList) "route".toList || routesSuffixTest n) && extTest n

end RouteTools

namespace RouteTools

/-! ## Basic lemmas about the matching core -/

theorem isSome_map {α β : Type} (f : α → β) (o : Option α) :
    (o.map f).isSome = o.isSome := by
  cases o <;> rfl

theorem isPrefL_ex {l s : List Char} (h : isPrefL l s = true) : ∃ t, s = l ++ t := by
  induction l generalizing s with
  | nil => exact ⟨s, rfl⟩
  | cons a as ih =>
    cases s with
    | nil => simp [isPrefL] at h
    | cons b bs =>
      simp only [isPrefL, Bool.and_eq_true, beq_iff_eq] at h
      obtain ⟨t, ht⟩ := ih h.2
      exact ⟨t, by simp [h.1, ht]⟩

theorem isPrefL_self_append (l t : List Char) : isPrefL l (l ++ t) = true := by
  induction l with
  | nil => rfl
  | cons a as ih => simp [isPrefL, ih]

theorem hasMatch_nil (s : List Char) : hasMatchSeq [] s = true := rfl

theorem hasMatch_lit_nil (ps : RPat) (s : List Char) :
    hasMatchSeq (.lit [] :: ps) s = hasMatchSeq ps s := by
  simp [hasMatchSeq, matchSeq, isPrefL, isSome_map]

theorem hasMatch_lit_cons (c : Char) (cs : List Char) (ps : RPat) (t : List Char) :
    hasMatchSeq (.lit (c :: cs) :: ps) (c :: t) = hasMatchSeq (.lit cs :: ps) t := by
  simp only [hasMatchSeq, matchSeq, isPrefL, beq_self_eq_true, Bool.true_and,
    List.length_cons, List.drop_succ_cons]
  cases h : isPrefL cs t <;> simp [h, isSome_map]

theorem hasMatch_wsStar_nonws (c : Char) (ps : RPat) (t : List Char) (h : isWs c = false) :
    hasMatchSeq (.wsStar :: ps) (c :: t) = hasMatchSeq ps (c :: t) := by
  simp [hasMatchSeq, matchSeq, takeWs, h, isSome_map]

theorem hasMatch_wsStar_ws (c : Char) (ps : RPat) (t : List Char) (h : isWs c = true) :
    hasMatchSeq (.wsStar :: ps) (c :: t) = hasMatchSeq (.wsStar :: ps) t := by
  simp [hasMatchSeq, matchSeq, takeWs, h, isSome_map]

theorem hasMatch_wsPlus_ws (c : Char) (ps : RPat) (t : List Char) (h : isWs c = true) :
    hasMatchSeq (.wsPlus :: ps) (c :: t) = hasMatchSeq (.wsStar :: ps) t := by
  simp [hasMatchSeq, matchSeq, takeWs, h, isSome_map]

/-- Rule 1's pattern matches wherever the literal
`routes.map(({ path, Component })` occurs. -/
theorem dynLit_match (rest : List Char) :
    hasMatchSeq routesMapPat (dynLitChars ++ rest) = true := by
  simp only [routesMapPat, dynLitChars, String.toList, List.cons_append, List.nil_append,
    List.append_assoc]
  simp [hasMatch_lit_cons, hasMatch_lit_nil, hasMatch_wsStar_nonws, hasMatch_wsStar_ws,
    hasMatch_wsPlus_ws, hasMatch_nil, isWs, lbrace, rbrace]

/-- Rule 2's pattern matches wherever the literal `new QueryClient(`
occurs. -/
theorem qcLit_match (rest : List Char) :
    hasMatchSeq qcPat (qcLitChars ++ rest) = true := by
  simp only [qcPat, qcLitChars, String.toList, List.cons_append, List.nil_append,
    List.append_assoc]
  simp [hasMatch_lit_cons, hasMatch_lit_nil, hasMatch_wsStar_nonws, hasMatch_wsStar_ws,
    hasMatch_wsPlus_ws, hasMatch_nil, isWs]

theorem scanFirstOpt_isSome_iff {α : Type} {f : Nat → Option α} {l : List Nat} :
    (scanFirstOpt f l).isSome = true ↔ ∃ i ∈ l, (f i).isSome = true := by
  induction l with
  | nil => simp [scanFirstOpt]
  | cons j t ih =>
    cases hj : f j with
    | some r => simp [scanFirstOpt, hj]
    | none =>
      simp only [scanFirstOpt, hj, ih, List.mem_cons]
      constructor
      · rintro ⟨i, hi, hfi⟩
        exact ⟨i, Or.inr hi, hfi⟩
      · rintro ⟨i, hi | hi, hfi⟩
        · rw [hi, hj] at hfi
          simp at hfi
        · exact ⟨i, hi, hfi⟩

theorem matchAltAt_pair (a : List Char) (s : List Char) :
    matchAltAt [a, a] s = matchAltAt [a] s := by
  simp [matchAltAt]

theorem scanFirstOpt_congr {α : Type} {f g : Nat → Option α} (h : ∀ i, f i = g i) :
    ∀ l : List Nat, scanFirstOpt f l = scanFirstOpt g l := by
  intro l
  induction l with
  | nil => rfl
  | cons i t ih => simp [scanFirstOpt, h i, ih]

theorem containsSub_ex {s sub : List Char} (h : containsSub s sub = true) :
    ∃ i ∈ List.range (s.length + 1), ∃ t, s.drop i = sub ++ t := by
  unfold containsSub firstAltPos at h
  rw [scanFirstOpt_isSome_iff] at h
  obtain ⟨i, hi, hfi⟩ := h
  refine ⟨i, hi, ?_⟩
  by_cases hm : matchAltAt [sub] (s.drop i) = true
  · simp only [matchAltAt, List.any_cons, List.any_nil, Bool.or_false] at hm
    exact isPrefL_ex hm
  · simp [hm] at hfi

theorem firstMatch_isSome {pat : RPat} {s : List Char} {i : Nat}
    (hi : i ∈ List.range (s.length + 1)) (hm : hasMatchSeq pat (s.drop i) = true) :
    (firstMatch pat s).isSome = true := by
  unfold firstMatch
  rw [scanFirstOpt_isSome_iff]
  refine ⟨i, hi, ?_⟩
  unfold hasMatchSeq at hm
  cases he : matchSeq pat (s.drop i) with
  | none => rw [he] at hm; simp at hm
  | some e => simp [he]

/-- Containment of the `routes.map` literal makes rule 1 fire. -/
theorem dynMatch_isSome {c : String} (h : containsSub c.toList dynLitChars = true) :
    (dynMatch c).isSome = true := by
  obtain ⟨i, hi, t, ht⟩ := containsSub_ex h
  exact firstMatch_isSome hi (by rw [ht]; exact dynLit_match t)

/-- A scan with a witnessed match position counts at least one match. -/
theorem countFrom_pos (pat : RPat) :
    ∀ (fuel : Nat) (s : List Char) (i : Nat), s.length < fuel →
      hasMatchSeq pat (s.drop i) = true → 1 ≤ countFrom pat fuel s := by
  intro fuel
  induction fuel with
  | zero => intro s i hf; omega
  | succ fuel ih =>
    intro s i hf hm
    cases hm0 : matchSeq pat s with
    | some e => simp [countFrom, hm0]
    | none =>
      cases s with
      | nil =>
        rw [List.drop_nil] at hm
        unfold hasMatchSeq at hm
        rw [hm0] at hm
        simp at hm
      | cons a t =>
        cases i with
        | zero =>
          rw [List.drop_zero] at hm
          unfold hasMatchSeq at hm
          rw [hm0] at hm
          simp at hm
        | succ j =>
          have : countFrom pat (fuel + 1) (a :: t) = countFrom pat fuel t := by
            simp [countFrom, hm0]
          rw [this]
          exact ih t j (by simpa using hf) (by simpa using hm)

/-- Containment of the `new QueryClient(` literal gives a positive match
count for rule 2. -/
theorem qcCount_pos {c : String} (h : containsSub c.toList qcLitChars = true) :
    0 < qcCount c := by
  obtain ⟨i, hi, t, ht⟩ := containsSub_ex h
  unfold qcCount countMatches
  exact countFrom_pos qcPat (c.toList.length + 1) c.toList i (by omega)
    (by rw [ht]; exact qcLit_match t)

/-! ## List counting lemmas -/

theorem countB_le_length {α : Type} (p : α → Bool) (l : List α) :
    countB p l ≤ l.length := by
  induction l with
  | nil => simp [countB]
  | cons a t ih =>
    simp only [countB, List.length_cons]
    split <;> omega

theorem countB_mono {α : Type} {p q : α → Bool} (h : ∀ a, p a = true → q a = true)
    (l : List α) : countB p l ≤ countB q l := by
  induction l with
  | nil => simp [countB]
  | cons a t ih =>
    simp only [countB]
    have hcase : (if p a then 1 else 0) ≤ (if q a then 1 else 0) := by
      cases hp : p a
      · simp
      · simp [h a hp]
    omega

theorem countB_append {α : Type} (p : α → Bool) (l₁ l₂ : List α) :
    countB p (l₁ ++ l₂) = countB p l₁ + countB p l₂ := by
  induction l₁ with
  | nil => simp [countB]
  | cons a t ih => simp [countB, ih, Nat.add_assoc]

theorem anyB_append {α : Type} (p : α → Bool) (l₁ l₂ : List α) :
    anyB p (l₁ ++ l₂) = (anyB p l₁ || anyB p l₂) := by
  induction l₁ with
  | nil => simp [anyB]
  | cons a t ih => simp [anyB, ih, Bool.or_assoc]

theorem allB_append {α : Type} (p : α → Bool) (l₁ l₂ : List α) :
    allB p (l₁ ++ l₂) = (allB p l₁ && allB p l₂) := by
  induction l₁ with
  | nil => simp [allB]
  | cons a t ih => simp [allB, ih, Bool.and_assoc]

theorem drop_len_append {α : Type} (l₁ l₂ : List α) :
    (l₁ ++ l₂).drop l₁.length = l₂ := by
  induction l₁ with
  | nil => rfl
  | cons a t ih =>
    simp only [List.cons_append, List.length_cons, List.drop_succ_cons]
    exact ih

end RouteTools

namespace RouteTools

/-! ## Severity lemmas -/

theorem D1_sevOK (c p : String) :
    allB sevOKb (D_checkDynamicRouteGeneration c p) = true := by
  unfold D_checkDynamicRouteGeneration
  cases dynMatch c <;> simp [allB, sevOKb]

theorem D2_sevOK (c p : String) :
    allB sevOKb (D_checkQueryClientCreation c p) = true := by
  unfold D_checkQueryClientCreation
  split <;> simp [allB, sevOKb]

theorem D3_sevOK (c p : String) :
    allB sevOKb (D_checkContextPlacement c p) = true := by
  unfold D_checkContextPlacement
  split
  · split <;> simp [allB, sevOKb]
  · simp [allB]

theorem D4_sevOK (c p : String) :
    allB sevOKb (D_checkBlockedNavigation c p) = true := by
  unfold D_checkBlockedNavigation
  split <;> simp [allB, sevOKb]

theorem D5_sevOK (c p : String) :
    allB sevOKb (D_checkActivityContext c p) = true := by
  unfold D_checkActivityContext
  split <;> simp [allB, sevOKb]

theorem D6_sevOK (c p : String) :
    allB sevOKb (D_checkMemoization c p) = true := by
  unfold D_checkMemoization
  split <;> simp [allB, sevOKb]

theorem D7_sevOK (c p : String) :
    allB sevOKb (D_checkAsyncWrapper c p) = true := by
  unfold D_checkAsyncWrapper
  split <;> simp [allB, sevOKb]

theorem D8_sevOK (c p : String) :
    allB sevOKb (D_checkShellPatterns c p) = true := by
  unfold D_checkShellPatterns
  split <;> simp [allB, sevOKb]

theorem D9_sevOK (c p : String) :
    allB sevOKb (D_checkPerformancePatterns c p) = true := by
  unfold D_checkPerformancePatterns
  simp only [allB_append, Bool.and_eq_true]
  refine ⟨⟨?_, ?_⟩, ?_⟩ <;> split <;> simp [allB, sevOKb]

/-- Every issue any of the nine extended-variant rules emits carries a
severity from the three-value enum. -/
theorem D_rules_sevOK (c p : String) : allB sevOKb (D_rules c p) = true := by
  unfold D_rules
  simp [allB_append, D1_sevOK, D2_sevOK, D3_sevOK, D4_sevOK, D5_sevOK,
    D6_sevOK, D7_sevOK, D8_sevOK, D9_sevOK]

/-- The issue sequence of a whole extended-variant run stays inside the
enum. -/
theorem issues_sevOK (vs : List Visit) : allB sevOKb (D_issuesOfVisits vs) = true := by
  induction vs with
  | nil => rfl
  | cons v t ih =>
    simp only [D_issuesOfVisits, allB_append, Bool.and_eq_true]
    refine ⟨?_, ih⟩
    cases hvc : v.content <;> simp [allB, D_rules_sevOK]

theorem bump_total (a : SevCounts) (i : Issue) (h : sevOKb i = true) :
    sevTotal (bumpSev a i) = sevTotal a + 1 := by
  simp only [sevOKb, Bool.or_eq_true, beq_iff_eq] at h
  rcases h with (h | h) | h <;> simp [bumpSev, sevTotal, h] <;> omega

theorem sevSum_foldl (l : List Issue) : ∀ a : SevCounts, allB sevOKb l = true →
    sevTotal (l.foldl bumpSev a) = sevTotal a + l.length := by
  induction l with
  | nil =>
    intro a _
    simp [sevTotal]
  | cons i t ih =>
    intro a h
    simp only [allB, Bool.and_eq_true] at h
    rw [List.foldl_cons, ih _ h.2, bump_total a i h.1, List.length_cons]
    omega

end RouteTools

namespace RouteTools

/-! ## Rule-by-rule comparison of the two variants (for claim C10) -/

theorem cmp_rule1 (c p : String) :
    (D_checkDynamicRouteGeneration c p).map eraseFix = (A_checkDynamicRouteGeneration c p).1 ∧
    allB (fun i => i.fix.isSome) (D_checkDynamicRouteGeneration c p) = true := by
  unfold D_checkDynamicRouteGeneration A_checkDynamicRouteGeneration
  cases dynMatch c <;> simp [eraseFix, allB]

theorem cmp_rule2 (c p : String) :
    (D_checkQueryClientCreation c p).map eraseFix = (A_checkQueryClientCreation c p).1 ∧
    allB (fun i => i.fix.isSome) (D_checkQueryClientCreation c p) = true := by
  unfold D_checkQueryClientCreation A_checkQueryClientCreation
  split <;> simp [eraseFix, allB]

theorem cmp_rule3 (c p : String) :
    (D_checkContextPlacement c p).map eraseFix = (A_checkContextPlacement c p).1 ∧
    allB (fun i => i.fix.isSome) (D_checkContextPlacement c p) = true := by
  unfold D_checkContextPlacement A_checkContextPlacement
  split
  · split <;> simp [eraseFix, allB]
  · simp [allB]

theorem cmp_rule4 (c p : String) :
    (D_checkBlockedNavigation c p).map eraseFix = (A_checkBlockedNavigation c p).1 ∧
    allB (fun i => i.fix.isSome) (D_checkBlockedNavigation c p) = true := by
  unfold D_checkBlockedNavigation A_checkBlockedNavigation
  split <;> simp [eraseFix, allB]

theorem cmp_rule5 (c p : String) :
    (D_checkActivityContext c p).map eraseFix = (A_checkActivityContext c p).1 ∧
    allB (fun i => i.fix.isSome) (D_checkActivityContext c p) = true := by
  unfold D_checkActivityContext A_checkActivityContext
  split <;> simp [eraseFix, allB]

theorem cmp_rule6 (c p : String) :
    (D_checkMemoization c p).map eraseFix = (A_checkMemoization c p).1 ∧
    allB (fun i => i.fix.isSome) (D_checkMemoization c p) = true := by
  unfold D_checkMemoization A_checkMemoization
  split <;> simp [eraseFix, allB]

theorem cmp_rule7 (c p : String) :
    (D_checkAsyncWrapper c p).map eraseFix = (A_checkAsyncWrapper c p).1 ∧
    allB (fun i => i.fix.isSome) (D_checkAsyncWrapper c p) = true := by
  unfold D_checkAsyncWrapper A_checkAsyncWrapper
  split <;> simp [eraseFix, allB]

theorem cmp_rule8 (c p : String) :
    (D_checkShellPatterns c p).map eraseFix = (A_checkShellPatterns c p).1 ∧
    allB (fun i => i.fix.isSome) (D_checkShellPatterns c p) = true := by
  unfold D_checkShellPatterns A_checkShellPatterns
  split <;> simp [eraseFix, allB]

theorem cmp_rule9 (c p : String) :
    (D_checkPerformancePatterns c p).map eraseFix = (A_checkPerformancePatterns c p).1 ∧
    allB (fun i => i.fix.isSome) (D_checkPerformancePatterns c p) = true := by
  unfold D_checkPerformancePatterns A_checkPerformancePatterns
  constructor
  · simp only [List.map_append]
    split <;> split <;> split <;> simp [eraseFix]
  · simp only [allB_append, Bool.and_eq_true]
    refine ⟨⟨?_, ?_⟩, ?_⟩ <;> split <;> simp [allB]

/-! ## Rule-by-rule facts for claim C3 -/

theorem dynCount_rule1 (c p : String) (hm : (dynMatch c).isSome = true) :
    countB dynIssueP (A_checkDynamicRouteGeneration c p).1 = 1 ∧
    anyB recWrapP (A_checkDynamicRouteGeneration c p).2 = !useMemoIn c := by
  unfold A_checkDynamicRouteGeneration
  cases h : dynMatch c with
  | none => rw [h] at hm; simp at hm
  | some ie =>
    constructor
    · simp [countB, dynIssueP]
    · cases hu : useMemoIn c <;> simp [anyB, recWrapP]

theorem dynCount_rule2 (c p : String) :
    countB dynIssueP (A_checkQueryClientCreation c p).1 = 0 ∧
    anyB recWrapP (A_checkQueryClientCreation c p).2 = false := by
  unfold A_checkQueryClientCreation
  split <;> simp [countB, anyB, dynIssueP, recWrapP]

theorem dynCount_rule3 (c p : String) :
    countB dynIssueP (A_checkContextPlacement c p).1 = 0 ∧
    anyB recWrapP (A_checkContextPlacement c p).2 = false := by
  unfold A_checkContextPlacement
  split
  · split <;> simp [countB, anyB, dynIssueP, recWrapP]
  · simp [countB, anyB]

theorem dynCount_rule4 (c p : String) :
    countB dynIssueP (A_checkBlockedNavigation c p).1 = 0 ∧
    anyB recWrapP (A_checkBlockedNavigation c p).2 = false := by
  unfold A_checkBlockedNavigation
  split <;> simp [countB, anyB, dynIssueP, recWrapP]

theorem dynCount_rule5 (c p : String) :
    countB dynIssueP (A_checkActivityContext c p).1 = 0 ∧
    anyB recWrapP (A_checkActivityContext c p).2 = false := by
  unfold A_checkActivityContext
  split <;> simp [countB, anyB, dynIssueP, recWrapP]

theorem dynCount_rule6 (c p : String) :
    countB dynIssueP (A_checkMemoization c p).1 = 0 ∧
    anyB recWrapP (A_checkMemoization c p).2 = false := by
  unfold A_checkMemoization
  split <;> simp [countB, anyB, dynIssueP, recWrapP]

theorem dynCount_rule7 (c p : String) :
    countB dynIssueP (A_checkAsyncWrapper c p).1 = 0 ∧
    anyB recWrapP (A_checkAsyncWrapper c p).2 = false := by
  unfold A_checkAsyncWrapper
  split <;> simp [countB, anyB, dynIssueP, recWrapP]

theorem dynCount_rule8 (c p : String) :
    countB dynIssueP (A_checkShellPatterns c p).1 = 0 ∧
    anyB recWrapP (A_checkShellPatterns c p).2 = false := by
  unfold A_checkShellPatterns
  split <;> simp [countB, anyB, dynIssueP, recWrapP]

theorem dynCount_rule9 (c p : String) :
    countB dynIssueP (A_checkPerformancePatterns c p).1 = 0 ∧
    anyB recWrapP (A_checkPerformancePatterns c p).2 = false := by
  unfold A_checkPerformancePatterns
  constructor
  · simp only [countB_append]
    split <;> split <;> split <;> simp [countB, dynIssueP]
  · simp [anyB]

end RouteTools

namespace RouteTools

/-! ## The claims -/

/-- C1: the spec's `FileStats` invariant `analyzed ≤ total` and
`withIssues ≤ analyzed` holds for every run of the simple variant, whose
walker counts every candidate file; but `bin/cli.js` never increments
`fileStats.total`, so on a directory holding one readable relevant file it
ends a run with `analyzed = 1` while `total = 0`, violating
`analyzed ≤ total`. -/
theorem claim_C1 :
    (∀ tree : Option FsListing,
      (A_stats (visitsOf tree)).analyzed ≤ (A_stats (visitsOf tree)).total ∧
      (A_stats (visitsOf tree)).withIssues ≤ (A_stats (visitsOf tree)).analyzed) ∧
    (D_stats (visitsOf (some tree0))).analyzed = 1 ∧
    (D_stats (visitsOf (some tree0))).total = 0 := by
  refine ⟨fun tree => ⟨?_, ?_⟩, by decide, by decide⟩
  · simp only [A_stats]
    exact countB_le_length analyzedP (visitsOf tree)
  · simp only [A_stats]
    refine countB_mono (fun v hv => ?_) (visitsOf tree)
    unfold withIssuesPA at hv
    unfold analyzedP
    cases hc : v.content
    · rw [hc] at hv
      simp at hv
    · simp [hc]

/-- C2 (amended): in both variants, an invocation that does not request
help and whose effective target path does not exist prints the path error
and exits 1 with no file analyzed; in the extended variant a nonexistent
positional argument never becomes the target in the first place (see the
counterexample), so for it the hypothesis concerns the default target. -/
theorem claim_C2 :
    (∀ (args : List String) (ex : String → Bool) (cwd : String) (tree : Option FsListing),
      (A_options args cwd).help = false → ex ((A_options args cwd).target) = false →
      A_main args ex cwd tree =
        { exitCode := 1, pathErrorPrinted := true, filesAnalyzed := 0 }) ∧
    (∀ (args : List String) (ex : String → Bool) (cwd : String) (tree : Option FsListing),
      (D_options args cwd ex).help = false → ex ((D_options args cwd ex).target) = false →
      D_main args ex cwd tree =
        { exitCode := 1, pathErrorPrinted := true, filesAnalyzed := 0 }) := by
  constructor <;> intro args ex cwd tree hh hex
  · simp [A_main, hh, hex]
  · simp [D_main, hh, hex]

/-- C2, counterexample to the claim as stated: invoking the extended
variant with the single positional argument `missing`, which does not
exist, while the working directory `/cwd` exists and holds one relevant
file, does not exit 1 before analysis: the argument is ignored, the run
analyzes one file and exits 0 in the default HTML mode. -/
theorem claim_C2_cex :
    cexEx (resolveP "/cwd" "missing") = false ∧
    D_main ["missing"] cexEx "/cwd" (some cexTree) =
      { exitCode := 0, pathErrorPrinted := false, filesAnalyzed := 1 } := by
  constructor
  · decide
  · decide

/-- C2, witness: the amended claim applied to a concrete invocation whose
target does not exist. -/
theorem claim_C2_witness :
    A_main ["gone"] (fun _ => false) "/cwd" none =
      { exitCode := 1, pathErrorPrinted := true, filesAnalyzed := 0 } ∧
    D_main ["gone"] (fun _ => false) "/cwd" none =
      { exitCode := 1, pathErrorPrinted := true, filesAnalyzed := 0 } :=
  ⟨claim_C2.1 ["gone"] (fun _ => false) "/cwd" none (by decide) rfl,
   claim_C2.2 ["gone"] (fun _ => false) "/cwd" none (by decide) rfl⟩

/-- C3: a file whose text contains the literal
`routes.map(({ path, Component })` receives exactly one high-severity
`dynamic-route-generation` issue from the simple variant's nine checks,
and the recommendation to wrap the routes array in `useMemo` is emitted if
and only if the token `useMemo` is absent from the file text. -/
theorem claim_C3 (c p : String) (h : containsSub c.toList dynLitChars = true) :
    countB dynIssueP (A_rules c p).issues = 1 ∧
    anyB recWrapP (A_rules c p).recs = !useMemoIn c := by
  have hm : (dynMatch c).isSome = true := dynMatch_isSome h
  obtain ⟨hc1, hr1⟩ := dynCount_rule1 c p hm
  constructor
  · simp [A_rules, countB_append, hc1, (dynCount_rule2 c p).1, (dynCount_rule3 c p).1,
      (dynCount_rule4 c p).1, (dynCount_rule5 c p).1, (dynCount_rule6 c p).1,
      (dynCount_rule7 c p).1, (dynCount_rule8 c p).1, (dynCount_rule9 c p).1]
  · simp [A_rules, anyB_append, hr1, (dynCount_rule2 c p).2, (dynCount_rule3 c p).2,
      (dynCount_rule4 c p).2, (dynCount_rule5 c p).2, (dynCount_rule6 c p).2,
      (dynCount_rule7 c p).2, (dynCount_rule8 c p).2, (dynCount_rule9 c p).2]

/-- C3, witness: the claim applied to a file that is exactly the
`routes.map` literal. -/
theorem claim_C3_witness :
    containsSub c3w.toList dynLitChars = true ∧
    (countB dynIssueP (A_rules c3w "f").issues = 1 ∧
     anyB recWrapP (A_rules c3w "f").recs = !useMemoIn c3w) :=
  ⟨by decide, claim_C3 c3w "f" (by decide)⟩

/-- C4: for a file in which both a context keyword and the router marker
occur, the context-placement rule emits its single high-severity issue
exactly when the first occurrence of the context pattern lies strictly
before the first occurrence of the router marker; in particular, when the
router marker comes first, nothing is emitted. -/
theorem claim_C4 (c p : String) (h1 : hasCtxTok c = true) (h2 : hasRoutesTag c = true) :
    (D_checkContextPlacement c p =
      [{ type := "context-placement", severity := "high", file := p,
         message := "Context may be placed above Routes - could cause unmounts",
         fix := some "Move context provider below shell routing but above module routes" }] ↔
      searchCtxI c < searchRoutesI c) ∧
    (searchRoutesI c < searchCtxI c → D_checkContextPlacement c p = []) := by
  obtain ⟨i, hi⟩ := Option.isSome_iff_exists.mp h1
  obtain ⟨j, hj⟩ := Option.isSome_iff_exists.mp h2
  have hci : searchCtxI c = (i : Int) := by
    unfold searchCtxI searchIdx hasCtxTok at *
    rw [hi]
  have hrj : searchRoutesI c = (j : Int) := by
    unfold searchRoutesI searchIdx hasRoutesTag at *
    rw [hj]
  have hne1 : searchCtxI c ≠ -1 := by rw [hci]; omega
  have hne2 : searchRoutesI c ≠ -1 := by rw [hrj]; omega
  by_cases hlt : searchCtxI c < searchRoutesI c
  · have hval : D_checkContextPlacement c p =
        [{ type := "context-placement", severity := "high", file := p,
           message := "Context may be placed above Routes - could cause unmounts",
           fix := some "Move context provider below shell routing but above module routes" }] := by
      simp only [D_checkContextPlacement, h1, h2, Bool.and_self, if_true]
      rw [if_pos ⟨hlt, hne1, hne2⟩]
    refine ⟨by simp [hval, hlt], fun hgt => absurd (lt_trans hlt hgt) (lt_irrefl _)⟩
  · have hval : D_checkContextPlacement c p = [] := by
      simp only [D_checkContextPlacement, h1, h2, Bool.and_self, if_true]
      rw [if_neg]
      intro hcond
      exact hlt hcond.1
    exact ⟨by simp [hval, hlt], fun _ => hval⟩

/-- C4, witness: a file in which the context keyword precedes the router
marker, so the issue is emitted. -/
theorem claim_C4_witness :
    hasCtxTok "useContext <Routes>" = true ∧ hasRoutesTag "useContext <Routes>" = true ∧
    ((D_checkContextPlacement "useContext <Routes>" "f" =
        [{ type := "context-placement", severity := "high", file := "f",
           message := "Context may be placed above Routes - could cause unmounts",
           fix := some "Move context provider below shell routing but above module routes" }] ↔
        searchCtxI "useContext <Routes>" < searchRoutesI "useContext <Routes>") ∧
      (searchRoutesI "useContext <Routes>" < searchCtxI "useContext <Routes>" →
        D_checkContextPlacement "useContext <Routes>" "f" = [])) :=
  ⟨by decide, by decide, claim_C4 "useContext <Routes>" "f" (by decide) (by decide)⟩

/-- C5 (amended): a file whose text contains the literal
`new QueryClient(` makes the client-construction rule emit exactly one
medium-severity `query-client-creation` issue whose count equals the
number of left-to-right matches of the constructor pattern (`new`, then
whitespace, then `QueryClient`, then optional whitespace and an opening
parenthesis); that number is at least the one literal occurrence, but
whitespace variants of the pattern are counted too, so it can exceed the
number of literal occurrences. -/
theorem claim_C5 (c p : String) (h : containsSub c.toList qcLitChars = true) :
    A_checkQueryClientCreation c p =
      ([{ type := "query-client-creation", severity := "medium", file := p,
          message := "QueryClient created in route file - may cause state loss",
          count := some (qcCount c) }],
       [{ file := some p,
          message := "Move QueryClient creation to module level or share instance" }]) ∧
    1 ≤ qcCount c := by
  have hq : 0 < qcCount c := qcCount_pos h
  refine ⟨?_, hq⟩
  unfold A_checkQueryClientCreation
  rw [if_pos hq]

/-- C5, counterexample to the claim as stated: a file containing the
literal `new QueryClient(` exactly twice and one tab-separated
`new QueryClient(` variant gets a single issue whose count is 3, not 2. -/
theorem claim_C5_cex :
    occCount c5cex.toList qcLitChars = 2 ∧
    (A_checkQueryClientCreation c5cex "f").1.map (fun i => i.count) = [some 3] ∧
    ¬((A_checkQueryClientCreation c5cex "f").1.map (fun i => i.count) = [some 2]) := by
  refine ⟨by decide, by decide, by decide⟩

/-- C5, witness: the amended claim applied to a file holding the literal
once. -/
theorem claim_C5_witness :
    containsSub ("const queryClient = new QueryClient()" : String).toList qcLitChars = true ∧
    (A_checkQueryClientCreation "const queryClient = new QueryClient()" "f" =
      ([{ type := "query-client-creation", severity := "medium", file := "f",
          message := "QueryClient created in route file - may cause state loss",
          count := some (qcCount "const queryClient = new QueryClient()") }],
       [{ file := some "f",
          message := "Move QueryClient creation to module level or share instance" }]) ∧
     1 ≤ qcCount "const queryClient = new QueryClient()") :=
  ⟨by decide, claim_C5 "const queryClient = new QueryClient()" "f" (by decide)⟩

/-- C6: after any extended-variant run, the three fixed severity counters
sum to the total number of issues; indeed every issue any of the nine
rules emits carries a severity from the three-value enum. -/
theorem claim_C6 (tree : Option FsListing) (c p : String) :
    sevTotal (getIssuesBySeverity (D_allIssues tree)) = (D_allIssues tree).length ∧
    allB sevOKb (D_rules c p) = true := by
  constructor
  · unfold getIssuesBySeverity D_allIssues
    have hsum := sevSum_foldl (D_issuesOfVisits (visitsOf tree)) ⟨0, 0, 0⟩
      (issues_sevOK (visitsOf tree))
    simpa [sevTotal] using hsum
  · exact D_rules_sevOK c p

/-- C7: a file name is selected for analysis exactly when it satisfies the
spec's relevance predicate (case-insensitive `route` substring or the
`Routes.ts`/`Routes.tsx` suffix, and one of the four script extensions):
the code's `isRelevantFile` coincides with the predicate, and the walker
analyzes a file entry exactly when the predicate accepts its name. -/
theorem claim_C7 :
    (∀ n : String, isRelevantFile n = relevanceSpec n) ∧
    (∀ (pre n : String) (c : Option String),
      walkEntry pre (FsEntry.file n c) =
        if relevanceSpec n then [⟨n, joinP pre n, c⟩] else []) := by
  have hci : ∀ n : String,
      routeNameTest n = containsSub (lowerL n.toList) "route".toList := by
    intro n
    unfold routeNameTest containsSub
    have h1 : lowerL "route".toList = "route".toList := by decide
    have h2 : lowerL "Route".toList = "route".toList := by decide
    rw [h1, h2]
    unfold firstAltPos
    exact congrArg Option.isSome
      (scanFirstOpt_congr (fun i => by rw [matchAltAt_pair]) _)
  have hre : ∀ n : String, isRelevantFile n = relevanceSpec n := by
    intro n
    unfold isRelevantFile relevanceSpec
    rw [hci n]
  refine ⟨hre, fun pre n c => ?_⟩
  simp only [walkEntry]
  rw [hre n]

/-- C8: a directory whose basename is on the fixed skip list contributes
no visits at all: no file anywhere under it is ever visited or analyzed,
whatever its listing holds. -/
theorem claim_C8 (pre n : String) (es : Option FsListing)
    (h : shouldSkipDirectory n = true) :
    walkEntry pre (FsEntry.dir n es) = [] := by
  have hmem : n ∈ skipDirs := by simpa [shouldSkipDirectory] using h
  have hrel : isRelevantFile n = false := by
    simp only [skipDirs, List.mem_cons, List.not_mem_nil, or_false] at hmem
    rcases hmem with h' | h' | h' | h' | h' | h' <;> subst h' <;> decide
  cases es with
  | none => simp [walkEntry, h, hrel]
  | some l => simp [walkEntry, h, hrel]

/-- C8, witness: a `node_modules` directory holding a relevant file name
is never walked. -/
theorem claim_C8_witness :
    shouldSkipDirectory "node_modules" = true ∧
    walkEntry "" (FsEntry.dir "node_modules"
      (some (.cons (.file "route.js" (some "x")) .nil))) = [] :=
  ⟨by decide, claim_C8 "" "node_modules"
    (some (.cons (.file "route.js" (some "x")) .nil)) (by decide)⟩

/-- C9: rule evaluation carries no state between invocations: whatever
issues accumulated before a file is analyzed, `analyzeRouteFile` appends
exactly `D_rules c p`, so two evaluations of the nine-rule set on
identical content and path contribute identical ordered issue lists. -/
theorem claim_C9 (c p : String) (prev₁ prev₂ : List Issue) :
    (D_appendIssues prev₁ c p).drop prev₁.length =
      (D_appendIssues prev₂ c p).drop prev₂.length ∧
    (D_appendIssues prev₁ c p).drop prev₁.length = D_rules c p := by
  unfold D_appendIssues
  rw [drop_len_append, drop_len_append]
  exact ⟨rfl, rfl⟩

/-- C10: on every file text and path, the extended variant's nine rules
emit the same ordered issue sequence as the simple variant's, agreeing on
type, severity, file, message, pattern and count; the extended issues
differ only in always carrying a `fix` string. -/
theorem claim_C10 (c p : String) :
    (D_rules c p).map eraseFix = (A_rules c p).issues ∧
    allB (fun i => i.fix.isSome) (D_rules c p) = true := by
  constructor
  · simp [D_rules, A_rules, List.map_append, (cmp_rule1 c p).1, (cmp_rule2 c p).1,
      (cmp_rule3 c p).1, (cmp_rule4 c p).1, (cmp_rule5 c p).1, (cmp_rule6 c p).1,
      (cmp_rule7 c p).1, (cmp_rule8 c p).1, (cmp_rule9 c p).1]
  · simp [D_rules, allB_append, (cmp_rule1 c p).2, (cmp_rule2 c p).2, (cmp_rule3 c p).2,
      (cmp_rule4 c p).2, (cmp_rule5 c p).2, (cmp_rule6 c p).2, (cmp_rule7 c p).2,
      (cmp_rule8 c p).2, (cmp_rule9 c p).2]

end RouteTools
